import Mathlib

/-!
Verification of the `mcp-browser-logger` protocol session manager
(`src/index.ts`) against its design specification.

The TypeScript source is shallowly embedded: the process-wide mutable
`browser` singleton becomes an explicit `BrowserState` value threaded
through the handlers, JavaScript values appearing in protocol frames are
modelled by the inductive `JSValue`, and the relevant platform builtins
(`String(x)`, `JSON.stringify`, `Array.prototype.slice` with a negative
index, the `||` default idiom) are modelled by small executable
functions with the JavaScript semantics on the embedded domain.
-/

namespace BrowserLogger

/-- A JavaScript runtime value as it can appear in a decoded protocol
frame: strings, (integer) numbers, booleans, null, and compound objects
given as field lists. -/
inductive JSValue where
  | str (s : String)
  | num (n : Int)
  | bool (b : Bool)
  | null
  | obj (fields : List (String × JSValue))
deriving Repr

/-- Model of the JavaScript `String(x)` conversion (also applied by
`Array.prototype.join`): primitives print their literal value and a
plain object prints as `[object Object]`. -/
def jsToString : JSValue → String
  | .str s => s
  | .num n => toString n
  | .bool true => "true"
  | .bool false => "false"
  | .null => "null"
  | .obj _ => "[object Object]"

/-- Model of `JSON.stringify` on the embedded value domain (string
escaping is not modelled; no string used below needs it). -/
def jsonStringify : JSValue → String
  | .str s => "\"" ++ s ++ "\""
  | .num n => toString n
  | .bool true => "true"
  | .bool false => "false"
  | .null => "null"
  | .obj fs =>
      "\x7b" ++
        String.intercalate ","
          (fs.attach.map (fun p => "\"" ++ p.1.1 ++ "\":" ++ jsonStringify p.1.2)) ++
      "\x7d"
decreasing_by
  obtain ⟨⟨a, v⟩, hm⟩ := p
  have hlt := List.sizeOf_lt_of_mem hm
  simp only [Prod.mk.sizeOf_spec] at hlt
  simp only [JSValue.obj.sizeOf_spec]
  omega


/-- Structure `ConsoleMessage` (src/index.ts lines 25-35).  The `level` field is
declared in TypeScript as the union of five literal strings, but at
runtime it holds whatever string the handlers store, so it is embedded
as `String`. -/
structure ConsoleMessage where
  level : String
  source : String
  text : String
  timestamp : Int
  url : Option String := none
  lineNumber : Option Int := none
  columnNumber : Option Int := none
  stackTrace : Option String := none
  args : Option (List JSValue) := none
deriving Repr

/-- The timing sub-object of `NetworkRequest` (src/index.ts lines 48-52). -/
structure NetworkTiming where
  requestTime : Int
  responseTime : Int
  duration : Int
deriving Repr, DecidableEq

/-- Structure `NetworkRequest` (src/index.ts lines 37-53). -/
structure NetworkRequest where
  requestId : String
  method : String
  url : String
  status : Option Int := none
  type : Option String := none
  mimeType : Option String := none
  timestamp : Int
  requestHeaders : Option (List (String × String)) := none
  responseHeaders : Option (List (String × String)) := none
  postData : Option String := none
  timing : Option NetworkTiming := none
deriving Repr, DecidableEq

/-- The two protocol dialects (`browserType` values). -/
inductive BrowserType where
  | chrome
  | firefox
deriving Repr, DecidableEq

def browserTypeName : BrowserType → String
  | .chrome => "chrome"
  | .firefox => "firefox"

/-- Structure `BrowserConnection` (src/index.ts lines 55-64).  The WebSocket
handle is embedded as an opaque numeric handle (`Option Nat`); `null`
becomes `none`. -/
structure BrowserState where
  ws : Option Nat
  connected : Bool
  messages : List ConsoleMessage
  networkRequests : List NetworkRequest
  nextMessageId : Nat
  maxMessages : Nat
  browserType : Option BrowserType
  currentTab : Option String
deriving Repr

/-- The initial value of the process-wide `browser` singleton
(src/index.ts lines 66-75). -/
def browser : BrowserState :=
  { ws := none
    connected := false
    messages := []
    networkRequests := []
    nextMessageId := 1
    maxMessages := 1000
    browserType := none
    currentTab := none }

/-- Function `addMessage` (src/index.ts lines 555-562): push to the tail, then
shift one record from the head if the length exceeds `maxMessages`. -/
def addMessage (st : BrowserState) (m : ConsoleMessage) : BrowserState :=
  let msgs := st.messages ++ [m]
  { st with messages := if st.maxMessages < msgs.length then msgs.tail else msgs }

/-- Function `addNetworkRequest` (src/index.ts lines 565-572). -/
def addNetworkRequest (st : BrowserState) (r : NetworkRequest) : BrowserState :=
  let reqs := st.networkRequests ++ [r]
  { st with networkRequests := if st.maxMessages < reqs.length then reqs.tail else reqs }

/-- The push-then-shift step shared by both bounded stores, at the list
level. -/
def boundedPush (cap : Nat) (xs : List α) (x : α) : List α :=
  let ys := xs ++ [x]
  if cap < ys.length then ys.tail else ys


/-- A Chrome CDP remote object as declared in the source's parameter
type for `Runtime.consoleAPICalled` (src/index.ts line 470): a `type`
tag plus a value. -/
structure RemoteObject where
  rtype : String
  value : JSValue
deriving Repr

/-- The JavaScript object a `RemoteObject` denotes, as `JSON.stringify`
sees it. -/
def remoteObjectToJS (a : RemoteObject) : JSValue :=
  .obj [("type", .str a.rtype), ("value", a.value)]

/-- Parameters of `Runtime.consoleAPICalled` as used by the source. -/
structure ConsoleAPIParams where
  type : String
  args : List RemoteObject
deriving Repr

/-- The per-argument rendering inside `handleConsoleAPICalled`
(src/index.ts lines 472-477): primitive-tagged arguments keep their
value (later stringified by `Array.prototype.join`), every other
argument becomes `JSON.stringify(arg)` of the whole wrapper object. -/
def chromeRenderArg (a : RemoteObject) : String :=
  if a.rtype = "string" ∨ a.rtype = "number" ∨ a.rtype = "boolean" then
    jsToString a.value
  else
    jsonStringify (remoteObjectToJS a)

/-- Function `handleConsoleAPICalled` (src/index.ts lines 470-488).  `now` is the
ambient `Date.now()` value. -/
def handleConsoleAPICalled (st : BrowserState) (params : ConsoleAPIParams) (now : Int) :
    BrowserState :=
  addMessage st
    { level := params.type
      source := "console-api"
      text := String.intercalate " " (params.args.map chromeRenderArg)
      timestamp := now
      args := some (params.args.map remoteObjectToJS) }

/-- Parameters of `Log.entryAdded` as used by the source. -/
structure LogEntry where
  level : String
  url : Option String := none
  lineNumber : Option Int := none
  text : String
deriving Repr

/-- Function `handleLogEntryAdded` (src/index.ts lines 491-504). -/
def handleLogEntryAdded (st : BrowserState) (entry : LogEntry) (now : Int) : BrowserState :=
  addMessage st
    { level := entry.level
      source := "browser-log"
      text := entry.text
      timestamp := now
      url := entry.url
      lineNumber := entry.lineNumber }

/-- The `message` part of a Firefox `consoleAPICall` packet as used by
the source. -/
structure FirefoxConsoleData where
  level : String
  arguments : List JSValue
deriving Repr

/-- Function `handleFirefoxConsoleAPI` (src/index.ts lines 438-451): the text is
`args.map(arg => String(arg)).join(' ')`. -/
def handleFirefoxConsoleAPI (st : BrowserState) (data : FirefoxConsoleData) (now : Int) :
    BrowserState :=
  addMessage st
    { level := data.level
      source := "firefox-console"
      text := String.intercalate " " (data.arguments.map jsToString)
      timestamp := now
      args := some data.arguments }

/-- The `pageError` part of a Firefox `pageError` packet. -/
structure FirefoxPageError where
  errorMessage : String
  sourceName : Option String := none
  lineNumber : Option Int := none
deriving Repr

/-- Function `handleFirefoxPageError` (src/index.ts lines 454-467). -/
def handleFirefoxPageError (st : BrowserState) (error : FirefoxPageError) (now : Int) :
    BrowserState :=
  addMessage st
    { level := "error"
      source := "firefox-error"
      text := error.errorMessage
      timestamp := now
      url := error.sourceName
      lineNumber := error.lineNumber }

/-- Field `exceptionDetails` of `Runtime.exceptionThrown` as used by the
source. -/
structure ExceptionDetails where
  description : Option String := none
  url : Option String := none
  lineNumber : Option Int := none
  columnNumber : Option Int := none
  stackTrace : Option String := none
deriving Repr

/-- Function `handleExceptionThrown` (src/index.ts lines 537-552):
`details.exception?.description || '未捕获的异常'`, the JavaScript `||`
also replacing an empty description string. -/
def handleExceptionThrown (st : BrowserState) (details : ExceptionDetails) (now : Int) :
    BrowserState :=
  addMessage st
    { level := "error"
      source := "javascript-exception"
      text := match details.description with
              | none => "未捕获的异常"
              | some d => if d = "" then "未捕获的异常" else d
      timestamp := now
      url := details.url
      lineNumber := details.lineNumber
      columnNumber := details.columnNumber
      stackTrace := details.stackTrace }

/-- Parameters of `Network.requestWillBeSent` as used by the source. -/
structure RequestParams where
  requestId : String
  method : String
  url : String
  headers : Option (List (String × String)) := none
  postData : Option String := none
  timestamp : Int
  type : Option String := none
deriving Repr

/-- Function `handleNetworkRequest` (src/index.ts lines 507-519):
`params.timestamp || Date.now()`, the JavaScript `||` also replacing a
zero timestamp. -/
def handleNetworkRequest (st : BrowserState) (params : RequestParams) (now : Int) :
    BrowserState :=
  addNetworkRequest st
    { requestId := params.requestId
      method := params.method
      url := params.url
      type := params.type
      timestamp := if params.timestamp = 0 then now else params.timestamp
      requestHeaders := params.headers
      postData := params.postData }

/-- Parameters of `Network.responseReceived` as used by the source. -/
structure ResponseParams where
  requestId : String
  status : Int
  mimeType : String
  headers : List (String × String)
  timestamp : Int
deriving Repr

/-- The in-place mutation `handleNetworkResponse` performs on the record
it found (src/index.ts lines 525-532).  The `requestTime` fallback is
`existingRequest.timing?.requestTime || existingRequest.timestamp`, the
JavaScript `||` also replacing a zero value. -/
def applyResponse (r : NetworkRequest) (p : ResponseParams) : NetworkRequest :=
  { r with
      status := some p.status
      mimeType := some p.mimeType
      responseHeaders := some p.headers
      timing := some
        { requestTime := match r.timing with
                         | some t => if t.requestTime = 0 then r.timestamp else t.requestTime
                         | none => r.timestamp
          responseTime := p.timestamp
          duration := p.timestamp - r.timestamp } }

/-- The effect of `find`-then-mutate on the stored list: only the first
record whose `requestId` matches is replaced. -/
def respondFirst (p : ResponseParams) : List NetworkRequest → List NetworkRequest
  | [] => []
  | r :: rest =>
      if r.requestId = p.requestId then applyResponse r p :: rest
      else r :: respondFirst p rest

/-- Function `handleNetworkResponse` (src/index.ts lines 522-534): looks up the
record by `requestId` with `Array.prototype.find` and mutates it in
place; when no record matches, nothing happens. -/
def handleNetworkResponse (st : BrowserState) (p : ResponseParams) : BrowserState :=
  { st with networkRequests := respondFirst p st.networkRequests }

/-- The JavaScript `x || default` idiom on an optional string argument
(an absent or empty string falls back to the default). -/
def jsOrString (v : Option String) (d : String) : String :=
  match v with
  | none => d
  | some s => if s = "" then d else s

/-- The JavaScript `x || default` idiom on an optional numeric argument
(an absent or zero value falls back to the default). -/
def jsOrNat (v : Option Nat) (d : Nat) : Nat :=
  match v with
  | none => d
  | some n => if n = 0 then d else n

/-- The JavaScript `x || false` idiom on an optional boolean argument. -/
def jsOrBool (v : Option Bool) : Bool :=
  match v with
  | none => false
  | some b => b

/-- The `get_console_logs` tool handler (src/index.ts lines 701-728),
up to its text formatting: coerce the arguments with `||` defaults,
filter by level unless it is `'all'`, keep `slice(-limit)`, and, when
`clear` is set, empty the whole `messages` sequence.  Returns the
selected records together with the updated state. -/
def getConsoleLogs (st : BrowserState) (level? : Option String) (limit? : Option Nat)
    (clear? : Option Bool) : List ConsoleMessage × BrowserState :=
  let level := jsOrString level? "all"
  let limit := jsOrNat limit? 50
  let clear := jsOrBool clear?
  let messages := if level ≠ "all" then st.messages.filter (fun m => m.level == level)
                  else st.messages
  let limited := messages.drop (messages.length - limit)
  (limited, if clear then { st with messages := [] } else st)

/-- The `get_network_requests` tool handler (src/index.ts lines
730-757), up to its text formatting: filter by method (case-insensitive)
unless the coerced method string is empty, keep `slice(-limit)`, and,
when `clear` is set, empty the whole `networkRequests` sequence. -/
def getNetworkRequests (st : BrowserState) (method? : Option String) (limit? : Option Nat)
    (clear? : Option Bool) : List NetworkRequest × BrowserState :=
  let method := jsOrString method? ""
  let limit := jsOrNat limit? 50
  let clear := jsOrBool clear?
  let requests := if method ≠ "" then
                    st.networkRequests.filter (fun r => r.method.toUpper == method.toUpper)
                  else st.networkRequests
  let limited := requests.drop (requests.length - limit)
  (limited, if clear then { st with networkRequests := [] } else st)

/-- The failure kinds a connect attempt can end in (spec taxonomy §7;
each corresponds to a `throw`/`reject` site in src/index.ts lines
228-361). -/
inductive ConnectError where
  | endpointUnreachable (port : Nat)
  | noTargetsAvailable
  | targetIndexOutOfRange (index count : Nat)
  | missingChannelAddress
  | channelError (message : String)
deriving Repr, DecidableEq

/-- A successful channel handshake: the constructed WebSocket handle,
the selected target identifier, and the informational result text. -/
structure ChannelOpen where
  handle : Nat
  tabId : String
  info : String
deriving Repr

/-- Function `connectToBrowser` (src/index.ts lines 364-385).  The dialect
branch's asynchronous outcome (discovery, handshake and initialization,
src/index.ts lines 228-361) is abstracted as `attempt`: on success the
handlers set `ws`, `connected` and `currentTab`; on any thrown failure
the `catch` block rolls back `connected`, `ws`, `browserType` and
`currentTab` before rethrowing. -/
def connectToBrowser (st : BrowserState) (bt : BrowserType)
    (attempt : Except ConnectError ChannelOpen) : Except ConnectError String × BrowserState :=
  if st.connected && st.ws.isSome then
    (.ok ("已经连接到 " ++ browserTypeName bt), st)
  else
    match attempt with
    | .ok c =>
        (.ok c.info,
          { st with browserType := some bt, currentTab := some c.tabId,
                    ws := some c.handle, connected := true })
    | .error e =>
        (.error e,
          { st with connected := false, ws := none, browserType := none, currentTab := none })

/-- One outstanding command of `sendCommand`: its correlation id, whether
its `ws.once('message', ...)` listener is still registered, and the
settlement of its promise (`none` while pending). -/
structure PendingCommand where
  id : Nat
  listenerActive : Bool
  result : Option (Except String JSValue)
deriving Repr

/-- The correlation-relevant part of the session: the `nextMessageId`
counter and the outstanding commands with their listeners. -/
structure CorrState where
  nextMessageId : Nat
  pending : List PendingCommand
deriving Repr

/-- Issuing a command via `sendCommand` (src/index.ts lines 388-415):
allocate `id = nextMessageId++`, register a one-shot `'message'`
listener, then write the frame.  Returns the allocated id. -/
def issueCommand (st : CorrState) : Nat × CorrState :=
  (st.nextMessageId,
    { nextMessageId := st.nextMessageId + 1
      pending := st.pending ++ [{ id := st.nextMessageId, listenerActive := true, result := none }] })

/-- An inbound frame as seen by the correlation path: a response or
error response carrying an `id`, or an event frame carrying a `method`
and no `id`. -/
inductive Frame where
  | response (id : Nat) (result : JSValue)
  | errorResponse (id : Nat) (message : String)
  | event (method : String)
deriving Repr

/-- What one `ws.once('message', ...)` listener does when a frame is
delivered (src/index.ts lines 398-411): the listener is removed by
`once` before running, and it settles its promise only when the frame's
`id` equals the command's id (an event frame has no `id`, so it never
matches). -/
def onceFire (f : Frame) (c : PendingCommand) : PendingCommand :=
  if c.listenerActive then
    match f with
    | .response i v =>
        if i = c.id then { c with listenerActive := false, result := some (.ok v) }
        else { c with listenerActive := false }
    | .errorResponse i m =>
        if i = c.id then { c with listenerActive := false, result := some (.error m) }
        else { c with listenerActive := false }
    | .event _ => { c with listenerActive := false }
  else c

/-- Delivery of one inbound frame: every currently registered one-shot
listener fires exactly once and is removed. -/
def deliverFrame (st : CorrState) (f : Frame) : CorrState :=
  { st with pending := st.pending.map (onceFire f) }

/-- The settlement of the command with the given id (`none` = its
promise is still pending). -/
def resultOf (st : CorrState) (i : Nat) : Option (Except String JSValue) :=
  (st.pending.find? (fun c => c.id == i)).bind (fun c => c.result)

/-- The five severity values enumerated by the `ConsoleMessage` type
(src/index.ts line 26). -/
def consoleLevels : List String := ["log", "error", "warning", "info", "debug"]

/-- Modelled from the spec (§4.4): "text is the space-joined string
rendering of each argument (primitive arguments render as their literal
value; compound arguments render as their JSON encoding)" — the
rendering of one protocol argument value the specification asks for. -/
def specRenderArg : JSValue → String
  | .str s => s
  | .num n => toString n
  | .bool true => "true"
  | .bool false => "false"
  | .null => "null"
  | .obj fs => jsonStringify (.obj fs)

/-- A plain sample console record used by concrete witnesses. -/
def sampleMsg : ConsoleMessage :=
  { level := "log", source := "console-api", text := "hello", timestamp := 1 }

/-- A plain sample network record used by concrete witnesses. -/
def sampleReq (i : String) : NetworkRequest :=
  { requestId := i, method := "GET", url := "http://example.com", timestamp := 10 }

/-- Whether a JavaScript value is primitive (not a compound object). -/
def isPrimitiveJS : JSValue → Bool
  | .obj _ => false
  | _ => true

/-- A state with two commands issued and neither settled (ids 1 and 2). -/
def corrTwoIssued : CorrState :=
  (issueCommand (issueCommand { nextMessageId := 1, pending := [] }).2).2

/-- The state after `corrTwoIssued` receives the two response frames out
of order: id 2 first, then id 1. -/
def corrOutOfOrder : CorrState :=
  deliverFrame (deliverFrame corrTwoIssued (Frame.response 2 (JSValue.str "r2")))
    (Frame.response 1 (JSValue.str "r1"))

/-- A state with one command issued and not settled (id 1). -/
def corrOneIssued : CorrState :=
  (issueCommand { nextMessageId := 1, pending := [] }).2

/-- The state after `corrOneIssued` receives an unrelated event frame
followed by its own response frame. -/
def corrEventInterleaved : CorrState :=
  deliverFrame (deliverFrame corrOneIssued (Frame.event "Network.requestWillBeSent"))
    (Frame.response 1 (JSValue.str "r1"))

/-- A session state that is already connected, used by witnesses. -/
def connectedState : BrowserState :=
  { browser with connected := true, ws := some 7, browserType := some .chrome,
                 currentTab := some "tab-0" }

/-- A concrete response-received parameter set used by witnesses. -/
def sampleResponse (i : String) : ResponseParams :=
  { requestId := i, status := 200, mimeType := "text/html",
    headers := [("content-type", "text/html")], timestamp := 25 }

/-! ## Helper lemmas -/

/-- Unfolding lemma for `jsonStringify` at a compound object. -/
theorem jsonStringify_obj (fs : List (String × JSValue)) :
    jsonStringify (.obj fs) =
      "\x7b" ++
        String.intercalate ","
          (fs.map (fun p => "\"" ++ p.1 ++ "\":" ++ jsonStringify p.2)) ++
      "\x7d" := by
  rw [jsonStringify]
  congr 1
  congr 1
  congr 1
  exact List.attach_map_coe fs (fun p => "\"" ++ p.1 ++ "\":" ++ jsonStringify p.2)

theorem addMessage_messages (st : BrowserState) (m : ConsoleMessage) :
    (addMessage st m).messages = boundedPush st.maxMessages st.messages m := rfl

theorem addNetworkRequest_networkRequests (st : BrowserState) (r : NetworkRequest) :
    (addNetworkRequest st r).networkRequests = boundedPush st.maxMessages st.networkRequests r := rfl

theorem length_boundedPush (cap : Nat) (xs : List α) (x : α) (h : xs.length ≤ cap) :
    (boundedPush cap xs x).length ≤ cap := by
  unfold boundedPush
  by_cases hc : cap < (xs ++ [x]).length
  · simp only [hc, if_true]
    simp [List.length_tail]
    omega
  · simp only [hc, if_false]
    simp at hc ⊢
    omega

theorem boundedPush_eq_drop (cap : Nat) (xs : List α) (x : α) (h : xs.length ≤ cap) :
    boundedPush cap xs x = (xs ++ [x]).drop ((xs.length + 1) - cap) := by
  unfold boundedPush
  by_cases hc : cap < (xs ++ [x]).length
  · simp only [hc, if_true]
    simp at hc
    have hx : xs.length + 1 - cap = 1 := by omega
    rw [hx, List.drop_one]
  · simp only [hc, if_false]
    simp at hc
    have hx : xs.length + 1 - cap = 0 := by omega
    rw [hx, List.drop_zero]

/-- Folding the bounded push keeps exactly the last `cap` elements of
everything appended so far (generalised over the accumulator). -/
theorem foldl_boundedPush (cap : Nat) :
    ∀ (ms : List α) (acc : List α), acc.length ≤ cap →
      List.foldl (boundedPush cap) acc ms =
        (acc ++ ms).drop ((acc.length + ms.length) - cap) := by
  intro ms
  induction ms with
  | nil =>
      intro acc h
      simp
      have : acc.length - cap = 0 := by omega
      rw [this]
      rfl
  | cons m rest ih =>
      intro acc h
      have hlen : (boundedPush cap acc m).length ≤ cap := length_boundedPush cap acc m h
      have hstep := boundedPush_eq_drop cap acc m h
      simp only [List.foldl_cons]
      rw [ih (boundedPush cap acc m) hlen, hstep]
      by_cases hfull : acc.length < cap
      · have h0 : acc.length + 1 - cap = 0 := by omega
        rw [h0]
        simp only [List.drop_zero]
        have hL : (acc ++ [m]) ++ rest = acc ++ m :: rest := by simp
        rw [hL]
        congr 1
        simp
        omega
      · have hacc : acc.length = cap := by omega
        have h1 : acc.length + 1 - cap = 1 := by omega
        rw [h1]
        have hrw : ((acc ++ [m]).drop 1 ++ rest) = (acc ++ m :: rest).drop 1 := by
          rw [← List.drop_append_of_le_length (by simp)]
          simp
        rw [hrw, List.drop_drop]
        congr 1
        simp
        omega

/-- Folding `addMessage` only folds the bounded push over the messages
sequence; the rest of the state is untouched. -/
theorem foldl_addMessage (ms : List ConsoleMessage) :
    ∀ st : BrowserState,
      List.foldl addMessage st ms =
        { st with messages := List.foldl (boundedPush st.maxMessages) st.messages ms } := by
  induction ms with
  | nil => intro st; rfl
  | cons m rest ih =>
      intro st
      simp only [List.foldl_cons]
      rw [ih (addMessage st m)]
      rfl

/-- Folding `addNetworkRequest` only folds the bounded push over the
network-request sequence; the rest of the state is untouched. -/
theorem foldl_addNetworkRequest (rs : List NetworkRequest) :
    ∀ st : BrowserState,
      List.foldl addNetworkRequest st rs =
        { st with networkRequests :=
            List.foldl (boundedPush st.maxMessages) st.networkRequests rs } := by
  induction rs with
  | nil => intro st; rfl
  | cons r rest ih =>
      intro st
      simp only [List.foldl_cons]
      rw [ih (addNetworkRequest st r)]
      rfl

/-- When no stored record matches the response's request identifier,
the find-then-mutate pass leaves the list unchanged. -/
theorem respondFirst_no_match (p : ResponseParams) :
    ∀ l : List NetworkRequest, (∀ r ∈ l, r.requestId ≠ p.requestId) → respondFirst p l = l := by
  intro l
  induction l with
  | nil => intro _; rfl
  | cons r rest ih =>
      intro h
      unfold respondFirst
      rw [if_neg (h r (by simp))]
      rw [ih (fun x hx => h x (by simp [hx]))]

/-- The find-then-mutate pass updates exactly the first matching record. -/
theorem respondFirst_first_match (p : ResponseParams) :
    ∀ (l₁ : List NetworkRequest) (r : NetworkRequest) (l₂ : List NetworkRequest),
      (∀ x ∈ l₁, x.requestId ≠ p.requestId) → r.requestId = p.requestId →
      respondFirst p (l₁ ++ r :: l₂) = l₁ ++ applyResponse r p :: l₂ := by
  intro l₁
  induction l₁ with
  | nil =>
      intro r l₂ _ hr
      simp only [List.nil_append]
      unfold respondFirst
      rw [if_pos hr]
  | cons x rest ih =>
      intro r l₂ hno hr
      simp only [List.cons_append]
      unfold respondFirst
      rw [if_neg (hno x (by simp))]
      rw [ih r l₂ (fun y hy => hno y (by simp [hy])) hr]

/-- With a positive capacity, the bounded push always keeps the pushed
element as the last stored one. -/
theorem getLast?_boundedPush (cap : Nat) (xs : List α) (x : α) (h : 0 < cap) :
    (boundedPush cap xs x).getLast? = some x := by
  unfold boundedPush
  by_cases hc : cap < (xs ++ [x]).length
  · simp only [hc, if_true]
    cases xs with
    | nil => simp at hc; omega
    | cons y ys =>
        simp only [List.cons_append, List.tail_cons]
        exact List.getLast?_concat _
  · simp only [hc, if_false]
    exact List.getLast?_concat _

/-- Keeping the last `n` elements: dropping all but `n` equals reversing,
taking `n`, and reversing back. -/
theorem drop_length_sub (l : List α) (n : Nat) :
    l.drop (l.length - n) = (l.reverse.take n).reverse := by
  have h := List.rtake_eq_reverse_take_reverse (l := l) (n := n)
  simpa [List.rtake] using h

/-- On primitive values the JavaScript string conversion and the
specification's rendering agree. -/
theorem jsToString_eq_specRenderArg_of_primitive (a : JSValue) (h : isPrimitiveJS a = true) :
    jsToString a = specRenderArg a := by
  cases a with
  | str s => rfl
  | num n => rfl
  | bool b => cases b <;> rfl
  | null => rfl
  | obj fs => simp [isPrimitiveJS] at h

/-! ## Claims -/

/-- C2: for every sequence of N single-record appends (N > 1000) to
either bounded store, the store afterwards holds exactly the last 1000
appended records in original append order (so its length is
min(N, 1000)); and with capacity 3, appending A,B,C,D yields [B,C,D]. -/
theorem bounded_store_keeps_last_capacity :
    (∀ ms : List ConsoleMessage, 1000 < ms.length →
      (List.foldl addMessage browser ms).messages.length = min ms.length 1000 ∧
      (List.foldl addMessage browser ms).messages = ms.drop (ms.length - 1000)) ∧
    (∀ rs : List NetworkRequest, 1000 < rs.length →
      (List.foldl addNetworkRequest browser rs).networkRequests.length = min rs.length 1000 ∧
      (List.foldl addNetworkRequest browser rs).networkRequests = rs.drop (rs.length - 1000)) ∧
    (∀ a b c d : ConsoleMessage,
      (List.foldl addMessage { browser with maxMessages := 3 } [a, b, c, d]).messages
        = [b, c, d]) := by
  refine ⟨?_, ?_, ?_⟩
  · intro ms h
    rw [foldl_addMessage]
    have hb : browser.messages = [] := rfl
    have hcap : browser.maxMessages = 1000 := rfl
    simp only [hb, hcap]
    rw [foldl_boundedPush 1000 ms [] (by simp)]
    simp only [List.nil_append, List.length_nil, Nat.zero_add]
    constructor
    · simp
      omega
    · trivial
  · intro rs h
    rw [foldl_addNetworkRequest]
    have hb : browser.networkRequests = [] := rfl
    have hcap : browser.maxMessages = 1000 := rfl
    simp only [hb, hcap]
    rw [foldl_boundedPush 1000 rs [] (by simp)]
    simp only [List.nil_append, List.length_nil, Nat.zero_add]
    constructor
    · simp
      omega
    · trivial
  · intro a b c d
    rfl

/-- C2 witness: 1001 appends to the console store leave the last 1000 in
order. -/
theorem bounded_store_keeps_last_capacity_witness :
    1000 < (List.replicate 1001 sampleMsg).length ∧
    (List.foldl addMessage browser (List.replicate 1001 sampleMsg)).messages =
      (List.replicate 1001 sampleMsg).drop ((List.replicate 1001 sampleMsg).length - 1000) :=
  ⟨by rw [List.length_replicate]; omega,
   (bounded_store_keeps_last_capacity.1 (List.replicate 1001 sampleMsg)
     (by rw [List.length_replicate]; omega)).2⟩

/-- C4: querying with the clear flag returns exactly the snapshot the
same query without clear would return, empties the queried store's full
underlying sequence (whatever predicate or limit was given), and leaves
the other store unchanged. -/
theorem query_clear_empties_full_store :
    ∀ (st : BrowserState) (lvl : Option String) (lim : Option Nat)
      (m : Option String) (lim2 : Option Nat),
      (getConsoleLogs st lvl lim (some true)).1 = (getConsoleLogs st lvl lim (some false)).1 ∧
      (getConsoleLogs st lvl lim (some true)).2.messages = [] ∧
      (getConsoleLogs st lvl lim (some true)).2.networkRequests = st.networkRequests ∧
      (getNetworkRequests st m lim2 (some true)).1 = (getNetworkRequests st m lim2 (some false)).1 ∧
      (getNetworkRequests st m lim2 (some true)).2.networkRequests = [] ∧
      (getNetworkRequests st m lim2 (some true)).2.messages = st.messages := by
  intro st lvl lim m lim2
  exact ⟨rfl, rfl, rfl, rfl, rfl, rfl⟩

/-- C6: a connect call while the session is already connected (flag set
and channel handle present) is a no-op success: the whole session state,
channel handle included, is returned unchanged, whatever the attempt
would have produced. -/
theorem connect_while_connected_is_noop :
    ∀ (st : BrowserState) (bt : BrowserType) (att : Except ConnectError ChannelOpen),
      st.connected = true → st.ws.isSome = true →
      connectToBrowser st bt att = (.ok ("已经连接到 " ++ browserTypeName bt), st) := by
  intro st bt att h1 h2
  unfold connectToBrowser
  rw [h1, h2]
  rfl

/-- C6 witness: a second connect on an already connected session. -/
theorem connect_while_connected_is_noop_witness :
    connectToBrowser connectedState .chrome (.error .noTargetsAvailable) =
      (.ok ("已经连接到 " ++ browserTypeName .chrome), connectedState) :=
  connect_while_connected_is_noop connectedState .chrome (.error .noTargetsAvailable) rfl rfl

/-- C7: when a connect attempt proceeds (session not already connected)
and fails with any of the failure kinds, the error propagates and the
session state rolls back to disconnected: no channel handle, connection
flag false, dialect cleared, selected target cleared. -/
theorem failed_connect_rolls_back :
    ∀ (st : BrowserState) (bt : BrowserType) (e : ConnectError),
      (st.connected && st.ws.isSome) = false →
      (connectToBrowser st bt (.error e)).1 = .error e ∧
      (connectToBrowser st bt (.error e)).2.ws = none ∧
      (connectToBrowser st bt (.error e)).2.connected = false ∧
      (connectToBrowser st bt (.error e)).2.browserType = none ∧
      (connectToBrowser st bt (.error e)).2.currentTab = none := by
  intro st bt e h
  unfold connectToBrowser
  rw [h]
  exact ⟨rfl, rfl, rfl, rfl, rfl⟩

/-- C7 witness: a failed discovery on the fresh disconnected state. -/
theorem failed_connect_rolls_back_witness :
    (connectToBrowser browser .chrome (.error (.endpointUnreachable 9222))).1 =
        .error (.endpointUnreachable 9222) ∧
    (connectToBrowser browser .chrome (.error (.endpointUnreachable 9222))).2.ws = none ∧
    (connectToBrowser browser .chrome (.error (.endpointUnreachable 9222))).2.connected = false ∧
    (connectToBrowser browser .chrome (.error (.endpointUnreachable 9222))).2.browserType = none ∧
    (connectToBrowser browser .chrome (.error (.endpointUnreachable 9222))).2.currentTab = none :=
  failed_connect_rolls_back browser .chrome (.endpointUnreachable 9222) rfl

/-- C10: a limit argument of 0 (or an absent limit) makes both query
operations behave exactly as the default limit 50. -/
theorem limit_zero_behaves_as_default :
    ∀ (st : BrowserState) (lvl : Option String) (m : Option String) (clr : Option Bool),
      getConsoleLogs st lvl (some 0) clr = getConsoleLogs st lvl none clr ∧
      getConsoleLogs st lvl none clr = getConsoleLogs st lvl (some 50) clr ∧
      getNetworkRequests st m (some 0) clr = getNetworkRequests st m none clr ∧
      getNetworkRequests st m none clr = getNetworkRequests st m (some 50) clr := by
  intro st lvl m clr
  exact ⟨rfl, rfl, rfl, rfl⟩

/-- C5: a response-received event with no matching stored request leaves
the whole session state unchanged (no record created, no fault — the
handler is a total function); with a match, exactly the first matching
record gains status, mime type, response headers and timing, every other
record and the console store being untouched. -/
theorem response_event_matching :
    (∀ (st : BrowserState) (p : ResponseParams),
      (∀ r ∈ st.networkRequests, r.requestId ≠ p.requestId) →
      handleNetworkResponse st p = st) ∧
    (∀ (st : BrowserState) (p : ResponseParams) (l₁ : List NetworkRequest)
       (r : NetworkRequest) (l₂ : List NetworkRequest),
      st.networkRequests = l₁ ++ r :: l₂ →
      (∀ x ∈ l₁, x.requestId ≠ p.requestId) →
      r.requestId = p.requestId →
      (handleNetworkResponse st p).networkRequests =
        l₁ ++
          { r with
              status := some p.status
              mimeType := some p.mimeType
              responseHeaders := some p.headers
              timing := some
                { requestTime := match r.timing with
                                 | some t => if t.requestTime = 0 then r.timestamp
                                             else t.requestTime
                                 | none => r.timestamp
                  responseTime := p.timestamp
                  duration := p.timestamp - r.timestamp } } :: l₂ ∧
      (handleNetworkResponse st p).messages = st.messages) := by
  constructor
  · intro st p h
    unfold handleNetworkResponse
    rw [respondFirst_no_match p st.networkRequests h]
  · intro st p l₁ r l₂ hsplit hno hr
    constructor
    · unfold handleNetworkResponse
      simp only [hsplit]
      exact respondFirst_first_match p l₁ r l₂ hno hr
    · rfl

/-- C5 witness: a non-matching response is dropped; a matching one
updates the (first) matching record of a two-record store. -/
theorem response_event_matching_witness :
    handleNetworkResponse { browser with networkRequests := [sampleReq "A", sampleReq "B"] }
        (sampleResponse "C") =
      { browser with networkRequests := [sampleReq "A", sampleReq "B"] } ∧
    (handleNetworkResponse { browser with networkRequests := [sampleReq "A", sampleReq "B"] }
        (sampleResponse "B")).networkRequests =
      [sampleReq "A"] ++
        { sampleReq "B" with
            status := some (sampleResponse "B").status
            mimeType := some (sampleResponse "B").mimeType
            responseHeaders := some (sampleResponse "B").headers
            timing := some
              { requestTime := match (sampleReq "B").timing with
                               | some t => if t.requestTime = 0 then (sampleReq "B").timestamp
                                           else t.requestTime
                               | none => (sampleReq "B").timestamp
                responseTime := (sampleResponse "B").timestamp
                duration := (sampleResponse "B").timestamp - (sampleReq "B").timestamp } } :: [] :=
  ⟨response_event_matching.1 _ (sampleResponse "C") (by decide),
   (response_event_matching.2 { browser with networkRequests := [sampleReq "A", sampleReq "B"] }
     (sampleResponse "B") [sampleReq "A"] (sampleReq "B") [] rfl (by decide) rfl).1⟩

/-- C8: contrary to the claim, the record-building handlers do not
normalise the protocol's level string to the five enumerated severities:
a Chrome console-API event of type "trace" and a log entry of level
"verbose" are stored verbatim, although neither is an enumerated
severity (the `ConsoleMessage` type's own enumeration, src/index.ts line
26, is bypassed by the unchecked cast). -/
theorem severity_enumeration_bypassed :
    ((handleConsoleAPICalled browser { type := "trace", args := [] } 0).messages.map
        (fun m => m.level)) = ["trace"] ∧
    consoleLevels.contains "trace" = false ∧
    ((handleLogEntryAdded browser { level := "verbose", text := "warn" } 0).messages.map
        (fun m => m.level)) = ["verbose"] ∧
    consoleLevels.contains "verbose" = false ∧
    ((handleFirefoxConsoleAPI browser { level := "trace", arguments := [] } 0).messages.map
        (fun m => m.level)) = ["trace"] := by
  exact ⟨rfl, by decide, rfl, by decide, rfl⟩

/-- C1: contrary to the claim, the one-shot `ws.once('message')`
listener of each pending command is consumed by the FIRST inbound frame
whatever its id.  When two commands (ids 1 and 2) are pending and the
responses arrive out of order, command 1's promise is never settled
while command 2 resolves with its result; an interleaved event frame
likewise consumes a pending command's listener, leaving it forever
unsettled even though its own response arrives next.  (When a command's
own response is the very first frame, it does resolve with it.) -/
theorem out_of_order_response_loses_command :
    (resultOf corrOutOfOrder 1 = none ∧
     resultOf corrOutOfOrder 2 = some (.ok (JSValue.str "r2"))) ∧
    resultOf corrEventInterleaved 1 = none ∧
    resultOf (deliverFrame corrOneIssued (Frame.response 1 (JSValue.str "r1"))) 1 =
      some (.ok (JSValue.str "r1")) := by
  exact ⟨⟨rfl, rfl⟩, rfl, rfl⟩

/-- C3: the console query returns the last `limit` records matching the
severity predicate, in original chronological order (all records when
the predicate is absent); on [log, error, info, error, error] with
severity "error" and limit 2 it returns the last two error records. -/
theorem query_returns_last_matching_in_order :
    (∀ (st : BrowserState) (lvl : String) (n : Nat),
      lvl ≠ "all" → lvl ≠ "" → 0 < n →
      (getConsoleLogs st (some lvl) (some n) none).1 =
        ((st.messages.filter (fun m => m.level == lvl)).reverse.take n).reverse) ∧
    (∀ (st : BrowserState) (n : Nat), 0 < n →
      (getConsoleLogs st none (some n) none).1 = (st.messages.reverse.take n).reverse) ∧
    (∀ m1 m2 m3 m4 m5 : ConsoleMessage,
      m1.level = "log" → m2.level = "error" → m3.level = "info" →
      m4.level = "error" → m5.level = "error" →
      (getConsoleLogs { browser with messages := [m1, m2, m3, m4, m5] }
          (some "error") (some 2) none).1 = [m4, m5]) := by
  refine ⟨?_, ?_, ?_⟩
  · intro st lvl n hall hne hn
    have hn' : ¬ n = 0 := by omega
    simp only [getConsoleLogs, jsOrString, jsOrNat, jsOrBool]
    rw [if_neg hne, if_neg hn', if_pos hall]
    exact drop_length_sub _ n
  · intro st n hn
    have hn' : ¬ n = 0 := by omega
    simp only [getConsoleLogs, jsOrString, jsOrNat, jsOrBool]
    rw [if_neg hn']
    rw [if_neg (by simp : ¬ ("all" : String) ≠ "all")]
    exact drop_length_sub _ n
  · intro m1 m2 m3 m4 m5 h1 h2 h3 h4 h5
    simp [getConsoleLogs, jsOrString, jsOrNat, jsOrBool, h1, h2, h3, h4, h5]

/-- C3 witness: the concrete five-record example. -/
theorem query_returns_last_matching_in_order_witness :
    (getConsoleLogs { browser with messages :=
        [{ level := "log", source := "s", text := "t1", timestamp := 1 },
         { level := "error", source := "s", text := "t2", timestamp := 2 },
         { level := "info", source := "s", text := "t3", timestamp := 3 },
         { level := "error", source := "s", text := "t4", timestamp := 4 },
         { level := "error", source := "s", text := "t5", timestamp := 5 }] }
        (some "error") (some 2) none).1 =
      [{ level := "error", source := "s", text := "t4", timestamp := 4 },
       { level := "error", source := "s", text := "t5", timestamp := 5 }] :=
  query_returns_last_matching_in_order.2.2 _ _ _ _ _ rfl rfl rfl rfl rfl

/-- C9 counterexample: in the Firefox dialect a compound argument is
rendered by the generic string conversion, not by its JSON encoding, so
the stored text differs from the specified space-joined rendering. -/
theorem firefox_compound_arg_not_json :
    ((handleFirefoxConsoleAPI browser { level := "log", arguments := [JSValue.obj []] } 0).messages.map
        (fun m => m.text)) = ["[object Object]"] ∧
    [String.intercalate " " ([JSValue.obj []].map specRenderArg)] = ["\x7b\x7d"] ∧
    ((handleFirefoxConsoleAPI browser { level := "log", arguments := [JSValue.obj []] } 0).messages.map
        (fun m => m.text)) ≠
      [String.intercalate " " ([JSValue.obj []].map specRenderArg)] := by
  have h1 : specRenderArg (JSValue.obj []) = "\x7b\x7d" := by
    rw [show specRenderArg (JSValue.obj []) = jsonStringify (JSValue.obj []) from rfl,
        jsonStringify_obj]
    decide
  refine ⟨rfl, ?_, ?_⟩
  · simp only [List.map_cons, List.map_nil, h1]
    decide
  · simp only [List.map_cons, List.map_nil, h1]
    decide

/-- C9 amended: in the Chrome dialect the stored text is the space-joined
rendering where an argument tagged string/number/boolean renders as its
literal value and any other argument as the JSON encoding of the
protocol's argument wrapper; in the Firefox dialect every argument is
rendered with the generic string conversion — which agrees with the
specified rendering on primitive arguments but renders compound
arguments as "[object Object]" instead of their JSON encoding. -/
theorem console_text_rendering :
    (∀ (st : BrowserState) (p : ConsoleAPIParams) (now : Int), 0 < st.maxMessages →
      ((handleConsoleAPICalled st p now).messages.getLast?).map (fun m => m.text) =
        some (String.intercalate " "
          (p.args.map (fun a =>
            if a.rtype = "string" ∨ a.rtype = "number" ∨ a.rtype = "boolean" then
              jsToString a.value
            else jsonStringify (remoteObjectToJS a))))) ∧
    (∀ (st : BrowserState) (d : FirefoxConsoleData) (now : Int), 0 < st.maxMessages →
      ((handleFirefoxConsoleAPI st d now).messages.getLast?).map (fun m => m.text) =
        some (String.intercalate " " (d.arguments.map jsToString))) ∧
    (∀ args : List JSValue, (∀ a ∈ args, isPrimitiveJS a = true) →
      args.map jsToString = args.map specRenderArg) := by
  refine ⟨?_, ?_, ?_⟩
  · intro st p now h
    unfold handleConsoleAPICalled
    rw [addMessage_messages]
    rw [getLast?_boundedPush _ _ _ h]
    rfl
  · intro st d now h
    unfold handleFirefoxConsoleAPI
    rw [addMessage_messages]
    rw [getLast?_boundedPush _ _ _ h]
    rfl
  · intro args h
    exact List.map_congr_left
      (fun a ha => jsToString_eq_specRenderArg_of_primitive a (h a ha))

/-- C9 amended witness: one primitive Chrome argument, one primitive
Firefox argument. -/
theorem console_text_rendering_witness :
    ((handleConsoleAPICalled browser
        { type := "log", args := [{ rtype := "string", value := JSValue.str "hi" }] }
        0).messages.getLast?).map (fun m => m.text) =
      some (String.intercalate " "
        ([({ rtype := "string", value := JSValue.str "hi" } : RemoteObject)].map (fun a =>
          if a.rtype = "string" ∨ a.rtype = "number" ∨ a.rtype = "boolean" then
            jsToString a.value
          else jsonStringify (remoteObjectToJS a)))) ∧
    ((handleFirefoxConsoleAPI browser { level := "log", arguments := [JSValue.num 42] }
        0).messages.getLast?).map (fun m => m.text) =
      some (String.intercalate " " ([JSValue.num 42].map jsToString)) ∧
    [JSValue.num 42].map jsToString = [JSValue.num 42].map specRenderArg :=
  ⟨console_text_rendering.1 browser
      { type := "log", args := [{ rtype := "string", value := JSValue.str "hi" }] } 0
      (by decide),
   console_text_rendering.2.1 browser { level := "log", arguments := [JSValue.num 42] } 0
      (by decide),
   console_text_rendering.2.2 [JSValue.num 42] (by decide)⟩

end BrowserLogger
